import Mathlib

/-
Verification of the stream_magic repository (Cambridge Audio StreamMagic
DLNA controller, Python) against its natural-language specification.

Shallow embedding: the relevant Python functions from
`stream_magic/device.py` and `stream_magic/discovery.py` are translated
into executable Lean definitions.  Python's possibility of raising an
exception is modelled with the `PyResult` type; Python's `None` value is
modelled with `Option`.
-/

set_option autoImplicit false

namespace StreamMagicSpec

/-- Result of running a piece of Python code: either a value or a raised
exception, identified by the exception class name. -/
inductive PyResult (α : Type) where
  | ok (val : α)
  | exn (name : String)
deriving DecidableEq, Repr

/-- `str.lower()` on a list of characters (headers and power-state strings
in this code base are ASCII). -/
def lowerChars (l : List Char) : List Char := l.map Char.toLower

/-- `str.lower()` producing a `String`. -/
def pyLower (s : String) : String := String.mk (lowerChars s.data)

/-- `str.startswith(p)`: the characters of `p` form a prefix of the
characters of `s`. -/
def pyStartswith (s p : String) : Bool := p.data.isPrefixOf s.data

/-- Python truthiness of an optional string (`bool(x)` for `x` a `str` or
`None`): `None` and the empty string are falsy. -/
def pyTruthy : Option String → Bool
  | none => false
  | some s => s ≠ ""

-- ---------------------------------------------------------------------
-- XML document model (xml.dom.minidom as used by device.py)
-- ---------------------------------------------------------------------

/-- An XML node as exposed by `xml.dom.minidom`: an element with a tag
name, attributes and child nodes, or a text node carrying character
data. -/
inductive XmlNode where
  | element (tag : String) (attrs : List (String × String)) (children : List XmlNode)
  | text (data : String)
deriving Repr

mutual

/-- `doc.getElementsByTagName(tag)` on a document whose root element is
`n`: all elements with the given tag name, in document (pre-)order, the
root included. -/
def elementsByTag (tag : String) : XmlNode → List XmlNode
  | .text _ => []
  | .element t a cs =>
      (if t = tag then [XmlNode.element t a cs] else []) ++ elementsByTagList tag cs

/-- `getElementsByTagName` mapped over a list of sibling nodes. -/
def elementsByTagList (tag : String) : List XmlNode → List XmlNode
  | [] => []
  | c :: cs => elementsByTag tag c ++ elementsByTagList tag cs

end

/-- `elem.getElementsByTagName(tag)` on an *element* node: per DOM, only
descendants are searched, the element itself is excluded. -/
def childElementsByTag (tag : String) : XmlNode → List XmlNode
  | .text _ => []
  | .element _ _ cs => elementsByTagList tag cs

/-- `node.firstChild`: the first child node, or `None`. -/
def firstChild : XmlNode → Option XmlNode
  | .text _ => none
  | .element _ _ [] => none
  | .element _ _ (c :: _) => some c

/-- `node.nodeValue`: the character data of a text node; `None` for an
element node. -/
def nodeValue : XmlNode → Option String
  | .text d => some d
  | .element _ _ _ => none

/-- `dict(node.attributes.items())` of an element node. -/
def nodeAttrs : XmlNode → List (String × String)
  | .element _ a _ => a
  | .text _ => []

mutual

/-- Whether an element with the given tag name occurs anywhere in the
tree rooted at `n` (the root included). -/
def containsTag (tag : String) : XmlNode → Bool
  | .text _ => false
  | .element t _ cs => (t = tag) || containsTagList tag cs

/-- `containsTag` over a list of sibling nodes. -/
def containsTagList (tag : String) : List XmlNode → Bool
  | [] => false
  | c :: cs => containsTag tag c || containsTagList tag cs

end

/-- `StreamMagicDevice._get_response_tag_value(response, tag)`
(device.py:119-125), applied to the parsed response document:

    values = minidom.parseString(response).getElementsByTagName(tag)
    if values:
        return values[0].firstChild.nodeValue
    return 'n/a'

`values[0].firstChild` is `None` for a childless element, in which case
`.nodeValue` raises `AttributeError`.  The result value is an
`Option String` because `nodeValue` itself yields Python `None` when the
first child is an element node. -/
def get_response_tag_value (response : XmlNode) (tag : String) : PyResult (Option String) :=
  match elementsByTag tag response with
  | [] => .ok (some "n/a")
  | v :: _ =>
    match firstChild v with
    | none => .exn "AttributeError"
    | some c => .ok (nodeValue c)

/-- `self._get_response_tag_value(response, tag)` where `response` is the
raw result of `_send_cmd` (so possibly `None`):
`minidom.parseString(None)` raises `TypeError`. -/
def tagValueOfResponse (response : Option XmlNode) (tag : String) : PyResult (Option String) :=
  match response with
  | none => .exn "TypeError"
  | some doc => get_response_tag_value doc tag

-- ---------------------------------------------------------------------
-- SSDP reply header parsing (discovery.py, discover, lines 86-101)
-- ---------------------------------------------------------------------

/-- Python's `elem.split(": ")` on the characters of a header line: split
on *every* (non-overlapping, left-to-right) occurrence of the two-byte
separator `": "`.  `acc` holds the characters of the current piece in
reverse. -/
def pySplitCS : List Char → List Char → List (List Char)
  | [], acc => [acc.reverse]
  | [c], acc => [(c :: acc).reverse]
  | c1 :: c2 :: rest, acc =>
      if c1 = ':' && c2 = ' ' then acc.reverse :: pySplitCS rest []
      else pySplitCS (c2 :: rest) (c1 :: acc)

/-- Whether the separator `": "` occurs in a character list. -/
def hasSepCS : List Char → Bool
  | [] => false
  | [_] => false
  | c1 :: c2 :: rest => (c1 = ':' && c2 = ' ') || hasSepCS (c2 :: rest)

/-- The per-line step of the header loop (discovery.py:88-101):

    headers = [elem.split(": ") for elem in ...]
    if len(header) > 1:
        (key, val) = str(header[0]).lower(), header[1]
    else:
        (key, val) = (str(header[0]).lower(), '')

Note that the value is `header[1]`, the piece *between the first and the
second* occurrence of `": "`; any further pieces are dropped. -/
def headerKV (line : List Char) : String × String :=
  match pySplitCS line [] with
  | k :: v :: _ => (String.mk (lowerChars k), String.mk v)
  | [k] => (String.mk (lowerChars k), "")
  | [] => ("", "")

/-- Split a character list at the *first* occurrence of `": "` only,
returning the pieces before and after it.  This is the operation the
spec describes ("split on the first `\": \"` into key/value"); it is
defined here only to be compared against `headerKV`, which models the
source. -/
def splitFirstCS : List Char → Option (List Char × List Char)
  | [] => none
  | [_] => none
  | c1 :: c2 :: rest =>
      if c1 = ':' && c2 = ' ' then some ([], rest)
      else (splitFirstCS (c2 :: rest)).map (fun p => (c1 :: p.1, p.2))

/-- The per-line parse as worded by the spec: split on the first `": "`,
lowercase the key, keep the whole remainder as the value; a line with no
separator maps to the empty value. -/
def headerKVFirstSplit (line : List Char) : String × String :=
  match splitFirstCS line with
  | some (k, v) => (String.mk (lowerChars k), String.mk v)
  | none => (String.mk (lowerChars line), "")

/-- Python `dict.update({k: v})` on an association list: overwrite the
entry in place if the key is present, append otherwise. -/
def assocUpdate {V : Type} (d : List (String × V)) (k : String) (v : V) : List (String × V) :=
  if d.any (fun p => p.1 = k) then d.map (fun p => if p.1 = k then (k, v) else p)
  else d ++ [(k, v)]

/-- Python `d[k]` lookup on an association list, `None` when absent. -/
def assocFind {V : Type} (d : List (String × V)) (k : String) : Option V :=
  (d.find? (fun p => p.1 = k)).map Prod.snd

/-- The header dictionary built from one decoded reply datagram
(discovery.py:88-101): the first line is discarded, each remaining line
is split by `headerKV` and the pairs are merged into a dict. -/
def buildHeaders (lines : List (List Char)) : List (String × String) :=
  (lines.drop 1).foldl (fun d l => assocUpdate d (headerKV l).1 (headerKV l).2) []

-- ---------------------------------------------------------------------
-- StreamMagic.discover (discovery.py, lines 58-115)
-- ---------------------------------------------------------------------

/-- A reply address: `(ip address, port)` as returned by `recvfrom`. -/
abbrev Addr := String × Nat

/-- A parsed reply header dictionary. -/
abbrev Headers := List (String × String)

/-- Python truthiness of the `host` parameter (`if host:`), which is
either `None` or a string. -/
def hostGiven : Option String → Bool
  | none => false
  | some h => h ≠ ""

/-- A device entry qualifies when its `server` header starts with
`"StreamMagic"` (discovery.py:107,111). -/
def isStreamMagicDev (e : Addr × Headers) : Bool :=
  match assocFind e.2 "server" with
  | some s => pyStartswith s "StreamMagic"
  | none => false

/-- The reply-processing loop of `discover` (discovery.py:86-112).

`discovered` models the *local* list `discovered_devices`, which the
source initialises to `[]` and reads in the no-host membership test but
never appends to (appends go to `self.devices`, modelled by `devices`).
The loop therefore carries `discovered` unchanged, exactly as the source
does.  `data['server']` on a dict without that key raises `KeyError`. -/
def discoverLoop (host : Option String) (discovered : List (Addr × Headers)) :
    List (Addr × Headers) → List (Addr × Headers) → PyResult (List (Addr × Headers))
  | devices, [] => .ok devices
  | devices, (addr, data) :: rest =>
      if hostGiven host then
        if some addr.1 = host then
          match assocFind data "server" with
          | none => .exn "KeyError"
          | some s =>
            if pyStartswith s "StreamMagic" then
              discoverLoop host discovered (devices ++ [(addr, data)]) rest
            else discoverLoop host discovered devices rest
        else discoverLoop host discovered devices rest
      else
        if addr ∈ discovered.map Prod.fst then
          discoverLoop host discovered devices rest
        else
          match assocFind data "server" with
          | none => .exn "KeyError"
          | some s =>
            if pyStartswith s "StreamMagic" then
              discoverLoop host discovered (devices ++ [(addr, data)]) rest
            else discoverLoop host discovered devices rest

/-- The per-instance state of a `StreamMagic` object: `self.devices`,
initialised to `[]` in `__init__` (discovery.py:38). -/
structure DiscoveryState where
  devices : List (Addr × Headers)
deriving DecidableEq, Repr

/-- The fresh state produced by `StreamMagic.__init__`. -/
def initDiscoveryState : DiscoveryState := ⟨[]⟩

/-- `StreamMagic.discover(host)` (discovery.py:58-115) as a function of
the raw replies collected by `_send_udp` (each an address plus the
decoded `splitlines()` of the datagram).  Returns the result value
(`self.devices` if non-empty, else `None`) together with the updated
instance state, or the exception raised. -/
def discover (st : DiscoveryState) (host : Option String)
    (replies : List (Addr × List (List Char))) :
    PyResult (Option (List (Addr × Headers)) × DiscoveryState) :=
  match discoverLoop host [] st.devices
      (replies.map (fun r => (r.1, buildHeaders r.2))) with
  | .exn e => .exn e
  | .ok devs => .ok ((if devs = [] then none else some devs), ⟨devs⟩)

-- ---------------------------------------------------------------------
-- StreamMagicDevice._send_cmd (device.py, lines 151-204)
-- ---------------------------------------------------------------------

/-- `StreamMagic.SOAP_ENCODING` (discovery.py:31). -/
def SOAP_ENCODING : String := "http://schemas.xmlsoap.org/soap/encoding/"

/-- `StreamMagic.SOAP_ENVELOPE` (discovery.py:32). -/
def SOAP_ENVELOPE : String := "http://schemas.xmlsoap.org/soap/envelope/"

/-- `StreamMagic.URN_AVTransport` (discovery.py:28), the default
`service_type` of `_send_cmd`. -/
def URN_AVTransport : String := "urn:schemas-upnp-org:service:AVTransport:1"

/-- One parameter tag as interpolated by `_send_cmd`
(device.py:170,174). -/
def fmtParamTag (name val : String) : String :=
  "<" ++ name ++ ">" ++ val ++ "</" ++ name ++ ">\n"

/-- Concatenation of a list of strings, in order. -/
def joinAll : List String → String
  | [] => ""
  | s :: rest => s ++ joinAll rest

/-- The `params` string of `_send_cmd` (device.py:165-174): the
`<InstanceID>` tag unless `omitInstanceId` is true, then one tag per
keyword argument, accumulated by `+=` in caller-supplied order.  Keyword
argument values are taken already `str`-formatted. -/
def sendCmdParams (instanceId : String) (omitInstanceId : Bool)
    (kwargs : List (String × String)) : String :=
  let params := if omitInstanceId then "" else fmtParamTag "InstanceID" instanceId
  kwargs.foldl (fun acc kv => acc ++ fmtParamTag kv.1 kv.2) params

/-- The `soapBody` template of `_send_cmd` (device.py:177-187) with the
placeholders substituted. -/
def soapBodyTemplate (action serviceType params : String) : String :=
  "<?xml version=\"1.0\" encoding=\"utf-8\"?>\n" ++
  "<s:Envelope xmlns:s=\"" ++ SOAP_ENVELOPE ++ "\" s:encodingStyle=\"" ++
      SOAP_ENCODING ++ "\">\n" ++
  "<s:Body>\n" ++
  "<u:" ++ action ++ " xmlns:u=\"" ++ serviceType ++ "\">\n" ++
  params ++
  "</u:" ++ action ++ ">\n" ++
  "</s:Body>\n" ++
  "</s:Envelope>\n"

/-- The complete SOAP request body built by `_send_cmd`. -/
def sendCmdBody (action serviceType instanceId : String) (omitInstanceId : Bool)
    (kwargs : List (String × String)) : String :=
  soapBodyTemplate action serviceType (sendCmdParams instanceId omitInstanceId kwargs)

/-- The tag list the spec describes for the action element: the
`<InstanceID>` tag exactly when `omitInstanceId` is false, followed by
one tag per extra argument in caller-supplied order, each named after
the argument and wrapping its value.  Defined from the spec's words, to
be compared with `sendCmdParams`. -/
def claimParamTags (instanceId : String) (omitInstanceId : Bool)
    (kwargs : List (String × String)) : List String :=
  (if omitInstanceId then [] else [fmtParamTag "InstanceID" instanceId]) ++
    kwargs.map (fun kv => fmtParamTag kv.1 kv.2)

/-- The exceptions the HTTP POST of `_send_cmd` (device.py:200-204) can
raise at the network level, by phase.  `urllib`'s HTTP handler
(`AbstractHTTPHandler.do_open`) wraps an `OSError` raised while
*sending* the request - including the 2-second connect timeout - in
`URLError`, and `HTTPError` is a subclass of `URLError`; but
`h.getresponse()` sits outside that wrap, so the timeout firing while
awaiting the device's reply, like any failure during `response.read()`,
surfaces as a bare `socket.timeout`/`OSError`, which is *not* a
`URLError`. -/
inductive NetExc where
  | httpError (code : Nat)
  | urlError
  | timeoutWrapped
  | socketTimeout
  | osError
deriving DecidableEq, Repr

/-- Whether an exception raised by the POST is an instance of `URLError`
and hence caught by `_send_cmd`'s `except URLError` handler: `HTTPError`
and the send-phase wrapped timeout are; a bare `socket.timeout` or
`OSError` from `getresponse()`/`read()` is not. -/
def isURLErrorInstance : NetExc → Bool
  | .httpError _ => true
  | .urlError => true
  | .timeoutWrapped => true
  | .socketTimeout => false
  | .osError => false

/-- Exception class name as seen by a caller of `_send_cmd`. -/
def netExcName : NetExc → String
  | .httpError _ => "HTTPError"
  | .urlError => "URLError"
  | .timeoutWrapped => "URLError"
  | .socketTimeout => "socket.timeout"
  | .osError => "OSError"

/-- Outcome of the `response.read()` call of `_send_cmd`
(device.py:202), once `urlopen` has returned a response object: the raw
body bytes, or an exception raised during the body read. -/
inductive ReadOutcome where
  | ok (bytes : String)
  | raise (e : NetExc)
deriving DecidableEq, Repr

/-- Outcome of the HTTP POST performed by `_send_cmd`
(device.py:201-202): `urlopen` either raises, or returns a response
object whose subsequent `read()` yields the bytes or raises in turn.
Both calls sit inside the same `try` block. -/
inductive PostOutcome where
  | opened (read : ReadOutcome)
  | raise (e : NetExc)
deriving DecidableEq, Repr

/-- `StreamMagicDevice._send_cmd` (device.py:151-204) as a function of
the service map (`self.services`, service type to control URL) and the
network outcome of the POST.  The request body is returned alongside the
response so that the request sent on the wire is observable.  When the
service type is unknown, `_get_service_data` returns `None` and
`None['ctrlUrl']` raises `TypeError` *outside* the `try` block; inside
it, an exception from `urlopen` or from `read()` yields `None` when it
is a `URLError` instance and propagates otherwise. -/
def sendCmd (services : List (String × String))
    (action serviceType instanceId : String) (omitInstanceId : Bool)
    (kwargs : List (String × String)) (net : PostOutcome) :
    PyResult (String × Option String) :=
  let body := sendCmdBody action serviceType instanceId omitInstanceId kwargs
  match assocFind services serviceType with
  | none => .exn "TypeError"
  | some _ctrlUrl =>
    match net with
    | .opened (.ok bytes) => .ok (body, some bytes)
    | .opened (.raise e) =>
        if isURLErrorInstance e then .ok (body, none) else .exn (netExcName e)
    | .raise e => if isURLErrorInstance e then .ok (body, none) else .exn (netExcName e)

-- ---------------------------------------------------------------------
-- StreamMagicDevice.get_playback_details (device.py, lines 548-604)
-- ---------------------------------------------------------------------

/-- A value stored in the dict returned by `get_playback_details`: a
string, the attribute dict of the `<format>` element, or Python
`None`. -/
inductive PbVal where
  | str (s : String)
  | attrs (l : List (String × String))
  | pynone
deriving DecidableEq, Repr

/-- Lift the `Option String` delivered by `nodeValue` into a dict
value. -/
def pbOfOpt : Option String → PbVal
  | some s => .str s
  | none => .pynone

/-- Outcome of the `try` block of `get_playback_details`
(device.py:574-591): either the four extracted values, or an
`IndexError` that the `except IndexError: pass` clause swallows (after
which building `data` from the unbound locals raises an
`UnboundLocalError`), or
an `AttributeError` from `.firstChild.nodeValue` on a childless element,
which the handler does not catch. -/
inductive TryExtract where
  | ok (state : Option String) (fmt : List (String × String))
      (artist stream : Option String)
  | indexError
  | attrError
deriving DecidableEq, Repr

/-- The `try` block of `get_playback_details` applied to the parsed
playback document: index `[0]` into each `getElementsByTagName` result
(raising `IndexError` when empty), then `.firstChild.nodeValue` for the
text fields and `dict(....attributes.items())` for `<format>`. -/
def pbTryExtract (doc : XmlNode) : TryExtract :=
  match elementsByTag "playback-details" doc with
  | [] => .indexError
  | pbd :: _ =>
    match childElementsByTag "state" pbd with
    | [] => .indexError
    | s0 :: _ =>
      match firstChild s0 with
      | none => .attrError
      | some sc =>
        match childElementsByTag "format" pbd with
        | [] => .indexError
        | f0 :: _ =>
          match childElementsByTag "artist" pbd with
          | [] => .indexError
          | a0 :: _ =>
            match firstChild a0 with
            | none => .attrError
            | some ac =>
              match childElementsByTag "stream" pbd with
              | [] => .indexError
              | st0 :: _ =>
                match childElementsByTag "title" st0 with
                | [] => .indexError
                | t0 :: _ =>
                  match firstChild t0 with
                  | none => .attrError
                  | some tc =>
                      .ok (nodeValue sc) (nodeAttrs f0) (nodeValue ac) (nodeValue tc)

/-- The SOAP exchanges `get_playback_details` performs, answered by the
environment.  Each field is the result of one `_send_cmd` call, already
parsed as XML (`none` models a `None` response after a network failure;
the device's replies themselves are well-formed XML).  `parsePlayback`
models `minidom.parseString` applied to the `RetPlaybackXML` payload
string, whose well-formedness is data-dependent. -/
structure DeviceEnv where
  transportResp : Option XmlNode
  registerResp : Option XmlNode
  playbackResp : Option XmlNode
  isRegResp : Option XmlNode
  parsePlayback : String → PyResult XmlNode

/-- The all-empty-string dict returned while the transport state is
`TRANSITIONING` (device.py:556-557). -/
def emptyPlaybackDict : List (String × PbVal) :=
  [("state", .str ""), ("format", .str ""), ("artist", .str ""), ("stream", .str "")]

/-- `StreamMagicDevice.get_playback_details` (device.py:548-604) as a
function of the cached power state `self._pwrstate` and the environment
answering its SOAP calls.  The first component of the result lists the
actions dispatched via `_send_cmd`, in order; the second is the returned
value (or the exception raised). -/
def get_playback_details (pwrstate : Option String) (env : DeviceEnv) :
    List String × PyResult (Option (List (String × PbVal))) :=
  if pwrstate ≠ some "on" then ([], .ok none)
  else
    -- self.get_transport_state() == 'TRANSITIONING'
    let calls1 := ["GetTransportInfo"]
    match tagValueOfResponse env.transportResp "CurrentTransportState" with
    | .exn e => (calls1, .exn e)
    | .ok ts =>
      if ts = some "TRANSITIONING" then (calls1, .ok (some emptyPlaybackDict))
      else
        -- nid = self._navigator_register()
        let calls2 := calls1 ++ ["RegisterNavigator"]
        match tagValueOfResponse env.registerResp "RetNavigatorId" with
        | .exn e => (calls2, .exn e)
        | .ok _nid =>
          let calls3 := calls2 ++ ["GetPlaybackDetails"]
          match tagValueOfResponse env.playbackResp "RetPlaybackXML" with
          | .exn e => (calls3, .exn e)
          | .ok pbDetails =>
            -- if self._navigator_is_registered(nid): self._navigator_release(nid)
            let calls4 := calls3 ++ ["IsRegisteredNavigatorId"]
            match tagValueOfResponse env.isRegResp "IsRegistered" with
            | .exn e => (calls4, .exn e)
            | .ok isReg =>
              let calls5 := if pyTruthy isReg then calls4 ++ ["ReleaseNavigator"] else calls4
              -- minidom.parseString(pb_details): TypeError on None,
              -- parse failures (e.g. on the 'n/a' sentinel) are not caught
              match pbDetails with
              | none => (calls5, .exn "TypeError")
              | some pbStr =>
                match env.parsePlayback pbStr with
                | .exn e => (calls5, .exn e)
                | .ok doc =>
                  match pbTryExtract doc with
                  | .indexError => (calls5, .exn "UnboundLocalError")
                  | .attrError => (calls5, .exn "AttributeError")
                  | .ok s f a t =>
                      (calls5, .ok (some [("state", pbOfOpt s), ("format", .attrs f),
                                          ("artist", pbOfOpt a), ("stream", pbOfOpt t)]))

-- ---------------------------------------------------------------------
-- StreamMagicDevice.power_on / power_off (device.py, lines 608-627)
-- ---------------------------------------------------------------------

/-- The vendor control service type used by the power methods. -/
def URN_UuVolControl : String := "urn:UuVol-com:service:UuVolControl:5"

/-- `StreamMagicDevice.power_on` (device.py:608-616) as a function of
the service map, the cached `self._pwrstate` and the network outcome of
the SOAP POST.  Returns the pair (returned response, new cached power
state). -/
def power_on (services : List (String × String)) (_pwrstate : Option String)
    (net : PostOutcome) : PyResult (Option String × Option String) :=
  match sendCmd services "SetPowerState" URN_UuVolControl "0" true
      [("NewPowerStateValue", "ON")] net with
  | .exn e => .exn e
  | .ok r => .ok (r.2, some "on")

/-- `StreamMagicDevice.power_off` (device.py:618-627): a `power_state`
other than `'OFF'`/`'IDLE'` returns `None` before any SOAP dispatch and
leaves the cache untouched; otherwise the cache is set to the lowercased
argument after the dispatch, whatever its outcome. -/
def power_off (services : List (String × String)) (pwrstate : Option String)
    (power_state : String) (net : PostOutcome) : PyResult (Option String × Option String) :=
  if power_state ∉ ["OFF", "IDLE"] then .ok (none, pwrstate)
  else
    match sendCmd services "SetPowerState" URN_UuVolControl "0" true
        [("NewPowerStateValue", power_state)] net with
    | .exn e => .exn e
    | .ok r => .ok (r.2, some (pyLower power_state))

-- ---------------------------------------------------------------------
-- Class-level shared registries (device.py, lines 38-43, 71-82, 206-239)
-- ---------------------------------------------------------------------

/-- A fragment of Python's object model sufficient for attribute
resolution on `StreamMagicDevice`: a class attribute table and
per-instance attribute tables, both mapping attribute names to
references into a heap of dictionary objects (value type `V`). -/
structure PyObjSys (V : Type) where
  classAttrs : List (String × Nat)
  instAttrs : List (Nat × List (String × Nat))
  heap : List (Nat × List (String × V))

/-- The `__dict__` of instance `i` (empty if the instance is unknown). -/
def instDict {V : Type} (sys : PyObjSys V) (i : Nat) : List (String × Nat) :=
  ((sys.instAttrs.find? (fun p => p.1 = i)).map Prod.snd).getD []

/-- Python attribute resolution for `getattr(i, name)`: the instance
`__dict__` first, the class attribute table second. -/
def attrRef {V : Type} (sys : PyObjSys V) (i : Nat) (name : String) : Option Nat :=
  match (instDict sys i).find? (fun p => p.1 = name) with
  | some p => some p.2
  | none => (sys.classAttrs.find? (fun p => p.1 = name)).map Prod.snd

/-- Dereference a dict object on the heap. -/
def heapDict {V : Type} (sys : PyObjSys V) (r : Nat) : Option (List (String × V)) :=
  (sys.heap.find? (fun p => p.1 = r)).map Prod.snd

/-- Overwrite the dict object at reference `r` in place. -/
def heapSet {V : Type} (sys : PyObjSys V) (r : Nat) (d : List (String × V)) : PyObjSys V :=
  { sys with heap := sys.heap.map (fun p => if p.1 = r then (r, d) else p) }

/-- `getattr(i, name).update({k: v})` / `getattr(i, name)[k] = v`: the
in-place dictionary mutation `__init__` performs on `self.services`
(device.py:81) and `_update_actions` performs on `self.actions`
(device.py:228-239).  `none` models the `AttributeError` of an
unresolvable attribute. -/
def attrDictUpdate {V : Type} (sys : PyObjSys V) (i : Nat) (name k : String) (v : V) :
    Option (PyObjSys V) :=
  match attrRef sys i name with
  | none => none
  | some r =>
    match heapDict sys r with
    | none => none
    | some d => some (heapSet sys r (assocUpdate d k v))

/-- Read entry `k` of the dict bound to attribute `name` as seen from
instance `i`. -/
def attrDictGet {V : Type} (sys : PyObjSys V) (i : Nat) (name k : String) : Option V :=
  (attrRef sys i name).bind fun r => (heapDict sys r).bind fun d => assocFind d k

/-- The object system set up by the `StreamMagicDevice` class body
(device.py:38-43): `services = dict()` and `actions = dict()` are
evaluated once at class-definition time, creating two dict objects bound
as *class* attributes; instances `0` and `1` have been constructed and
own no attribute named `services` or `actions` (the source only ever
mutates the dicts in place, never rebinds the names on `self`). -/
def streamMagicClassSys (V : Type) : PyObjSys V :=
  { classAttrs := [("services", 0), ("actions", 1)]
    instAttrs := [(0, []), (1, [])]
    heap := [(0, []), (1, [])] }

-- ---------------------------------------------------------------------
-- Concrete documents and environments (used to instantiate theorems)
-- ---------------------------------------------------------------------

/-- An element holding a single text node. -/
def xmlLeaf (tag txt : String) : XmlNode := .element tag [] [.text txt]

/-- A device SOAP response document carrying one value tag. -/
def soapRespWith (tag txt : String) : XmlNode := .element "resp" [] [xmlLeaf tag txt]

/-- A well-formed playback-details document, shaped like the example in
the source comment (device.py:593-601). -/
def pbDocExample : XmlNode :=
  .element "playback-details" []
    [xmlLeaf "state" "Playing",
     .element "format" [("codec", "MP3"), ("sample-rate", "44100")] [],
     xmlLeaf "artist" "Derek And The Dominos - Layla",
     .element "stream" [] [xmlLeaf "title" "Psychomed Rock"]]

/-- An environment whose device never answers (every SOAP call fails). -/
def envSilent : DeviceEnv :=
  { transportResp := none, registerResp := none, playbackResp := none,
    isRegResp := none, parsePlayback := fun _ => .exn "ExpatError" }

/-- An environment whose device reports a `TRANSITIONING` transport
state. -/
def envTransitioning : DeviceEnv :=
  { transportResp := some (soapRespWith "CurrentTransportState" "TRANSITIONING")
    registerResp := none, playbackResp := none, isRegResp := none
    parsePlayback := fun _ => .exn "ExpatError" }

/-- An environment whose device is playing a stream and answers every
call with well-formed documents. -/
def envPlaying : DeviceEnv :=
  { transportResp := some (soapRespWith "CurrentTransportState" "PLAYING")
    registerResp := some (soapRespWith "RetNavigatorId" "17")
    playbackResp := some (soapRespWith "RetPlaybackXML" "pbxml")
    isRegResp := some (soapRespWith "IsRegistered" "1")
    parsePlayback := fun s => if s = "pbxml" then .ok pbDocExample else .exn "ExpatError" }

-- ---------------------------------------------------------------------
-- Helper lemmas
-- ---------------------------------------------------------------------

theorem foldl_append_joinAll (f : String × String → String) :
    ∀ (l : List (String × String)) (init : String),
      l.foldl (fun acc kv => acc ++ f kv) init = init ++ joinAll (l.map f) := by
  intro l
  induction l with
  | nil => intro init; simp [joinAll]
  | cons kv l ih =>
      intro init
      simp only [List.foldl_cons, List.map_cons, joinAll, ih, String.append_assoc]

-- ---------------------------------------------------------------------
-- C1
-- ---------------------------------------------------------------------

/-- C1: every SOAP request body built by `_send_cmd` is the SOAP 1.1
envelope whose action element contains, in order, the `<InstanceID>` tag
exactly when `omitInstanceId` is false (carrying the given instance id),
followed by one tag per extra keyword argument in caller-supplied order,
each tag named after the argument and wrapping its value. -/
theorem C1_soap_body_structure (action serviceType instanceId : String)
    (omitInstanceId : Bool) (kwargs : List (String × String)) :
    sendCmdBody action serviceType instanceId omitInstanceId kwargs =
      soapBodyTemplate action serviceType
        (joinAll (claimParamTags instanceId omitInstanceId kwargs)) := by
  unfold sendCmdBody sendCmdParams claimParamTags
  cases omitInstanceId with
  | false =>
      simp only [Bool.false_eq_true, if_false, if_neg]
      rw [foldl_append_joinAll]
      simp [joinAll]
  | true =>
      simp only [if_true]
      rw [foldl_append_joinAll]
      simp [joinAll]

-- ---------------------------------------------------------------------
-- C2
-- ---------------------------------------------------------------------

/-- C2 (amended): for every action dispatch via `_send_cmd` against a
registered service type, a POST failure that is a `URLError` instance
(URL error, HTTP error, or a send-phase failure such as the connect
timeout, which urllib wraps in `URLError`) makes the call return `None`
rather than propagate, whether it arises from `urlopen` or from
`read()`; a bare `socket.timeout`/`OSError` raised while awaiting or
reading the response is not a `URLError` and propagates; a successful
POST returns the raw response bytes. -/
theorem C2_send_cmd_exception_semantics (services : List (String × String))
    (action serviceType instanceId : String) (omitInstanceId : Bool)
    (kwargs : List (String × String)) (ctrlUrl : String)
    (hsvc : assocFind services serviceType = some ctrlUrl) :
    (∀ e : NetExc, isURLErrorInstance e = true →
        sendCmd services action serviceType instanceId omitInstanceId kwargs (.raise e) =
          .ok (sendCmdBody action serviceType instanceId omitInstanceId kwargs, none)) ∧
    (∀ e : NetExc, isURLErrorInstance e = true →
        sendCmd services action serviceType instanceId omitInstanceId kwargs
            (.opened (.raise e)) =
          .ok (sendCmdBody action serviceType instanceId omitInstanceId kwargs, none)) ∧
    (∀ e : NetExc, isURLErrorInstance e = false →
        sendCmd services action serviceType instanceId omitInstanceId kwargs (.raise e) =
          .exn (netExcName e)) ∧
    (∀ e : NetExc, isURLErrorInstance e = false →
        sendCmd services action serviceType instanceId omitInstanceId kwargs
            (.opened (.raise e)) =
          .exn (netExcName e)) ∧
    (∀ bytes : String,
        sendCmd services action serviceType instanceId omitInstanceId kwargs
            (.opened (.ok bytes)) =
          .ok (sendCmdBody action serviceType instanceId omitInstanceId kwargs,
               some bytes)) := by
  refine ⟨?_, ?_, ?_, ?_, ?_⟩
  · intro e he
    unfold sendCmd
    rw [hsvc]
    cases e <;> first | rfl | simp [isURLErrorInstance] at he
  · intro e he
    unfold sendCmd
    rw [hsvc]
    cases e <;> first | rfl | simp [isURLErrorInstance] at he
  · intro e he
    unfold sendCmd
    rw [hsvc]
    cases e <;> first | rfl | simp [isURLErrorInstance] at he
  · intro e he
    unfold sendCmd
    rw [hsvc]
    cases e <;> first | rfl | simp [isURLErrorInstance] at he
  · intro bytes
    unfold sendCmd
    rw [hsvc]

/-- Witness for C2 at a concrete service map and action: a wrapped
send-phase timeout and an HTTP error return `None` (from either phase),
a bare response-phase timeout and a read-phase `OSError` propagate, and
a successful POST returns the bytes. -/
theorem C2_witness :
    sendCmd [(URN_AVTransport, "http://host/ctrl")] "GetTransportInfo" URN_AVTransport
        "0" false [] (.raise .timeoutWrapped) =
      .ok (sendCmdBody "GetTransportInfo" URN_AVTransport "0" false [], none) ∧
    sendCmd [(URN_AVTransport, "http://host/ctrl")] "GetTransportInfo" URN_AVTransport
        "0" false [] (.opened (.raise (.httpError 500))) =
      .ok (sendCmdBody "GetTransportInfo" URN_AVTransport "0" false [], none) ∧
    sendCmd [(URN_AVTransport, "http://host/ctrl")] "GetTransportInfo" URN_AVTransport
        "0" false [] (.raise .socketTimeout) = .exn "socket.timeout" ∧
    sendCmd [(URN_AVTransport, "http://host/ctrl")] "GetTransportInfo" URN_AVTransport
        "0" false [] (.opened (.raise .osError)) = .exn "OSError" ∧
    sendCmd [(URN_AVTransport, "http://host/ctrl")] "GetTransportInfo" URN_AVTransport
        "0" false [] (.opened (.ok "<resp/>")) =
      .ok (sendCmdBody "GetTransportInfo" URN_AVTransport "0" false [], some "<resp/>") :=
  ⟨(C2_send_cmd_exception_semantics [(URN_AVTransport, "http://host/ctrl")]
      "GetTransportInfo" URN_AVTransport "0" false [] "http://host/ctrl" rfl).1
      .timeoutWrapped rfl,
   (C2_send_cmd_exception_semantics [(URN_AVTransport, "http://host/ctrl")]
      "GetTransportInfo" URN_AVTransport "0" false [] "http://host/ctrl" rfl).2.1
      (.httpError 500) rfl,
   (C2_send_cmd_exception_semantics [(URN_AVTransport, "http://host/ctrl")]
      "GetTransportInfo" URN_AVTransport "0" false [] "http://host/ctrl" rfl).2.2.1
      .socketTimeout rfl,
   (C2_send_cmd_exception_semantics [(URN_AVTransport, "http://host/ctrl")]
      "GetTransportInfo" URN_AVTransport "0" false [] "http://host/ctrl" rfl).2.2.2.1
      .osError rfl,
   (C2_send_cmd_exception_semantics [(URN_AVTransport, "http://host/ctrl")]
      "GetTransportInfo" URN_AVTransport "0" false [] "http://host/ctrl" rfl).2.2.2.2
      "<resp/>"⟩

/-- C2 (counterexample): the claim promises a null result, not a
propagating exception, for *every* network-level failure including a
timeout; but the 2-second timeout firing while awaiting the device's
reply surfaces as a bare `socket.timeout`, which `except URLError` does
not catch, so the call propagates it - and likewise an `OSError` during
`response.read()`. -/
theorem C2_counterexample :
    sendCmd [(URN_AVTransport, "http://host/ctrl")] "GetPowerState" URN_AVTransport
        "0" false [] (.raise .socketTimeout) = .exn "socket.timeout" ∧
    sendCmd [(URN_AVTransport, "http://host/ctrl")] "GetPowerState" URN_AVTransport
        "0" false [] (.opened (.raise .socketTimeout)) = .exn "socket.timeout" ∧
    sendCmd [(URN_AVTransport, "http://host/ctrl")] "GetPowerState" URN_AVTransport
        "0" false [] (.opened (.raise .osError)) = .exn "OSError" :=
  ⟨rfl, rfl, rfl⟩

-- ---------------------------------------------------------------------
-- C3 (with helper lemma on the discover loop)
-- ---------------------------------------------------------------------

theorem discoverLoop_preserves_filter (host : Option String)
    (disc : List (Addr × Headers)) :
    ∀ (rs devs out : List (Addr × Headers)),
      discoverLoop host disc devs rs = .ok out →
      (∀ e ∈ devs, isStreamMagicDev e = true) →
      ∀ e ∈ out, isStreamMagicDev e = true := by
  intro rs
  induction rs with
  | nil =>
      intro devs out h hdev
      unfold discoverLoop at h
      cases h
      exact hdev
  | cons r rest ih =>
      intro devs out h hdev
      obtain ⟨addr, data⟩ := r
      unfold discoverLoop at h
      have happend : ∀ s, assocFind data "server" = some s →
          pyStartswith s "StreamMagic" = true →
          ∀ e ∈ devs ++ [(addr, data)], isStreamMagicDev e = true := by
        intro s hs hsw e he
        rcases List.mem_append.mp he with h1 | h2
        · exact hdev e h1
        · have : e = (addr, data) := List.mem_singleton.mp h2
          subst this
          unfold isStreamMagicDev
          rw [hs]
          exact hsw
      split at h
      · -- host given
        split at h
        · -- address matches
          split at h
          · cases h
          · rename_i s hs
            split at h
            · exact ih _ _ h (happend s hs (by assumption))
            · exact ih _ _ h hdev
        · exact ih _ _ h hdev
      · -- no host
        split at h
        · exact ih _ _ h hdev
        · split at h
          · cases h
          · rename_i s hs
            split at h
            · exact ih _ _ h (happend s hs (by assumption))
            · exact ih _ _ h hdev

/-- C3: for every call to `discover` (with or without a target host)
whose result is a device list, every entry of that list has a `server`
header starting with `"StreamMagic"`; no non-matching reply is ever
included.  (The hypothesis on the incoming state holds for a fresh
`StreamMagic` instance, whose `devices` list is empty, and is preserved
by every call, so it is an invariant of all reachable states.) -/
theorem C3_discover_filter_invariant (st : DiscoveryState) (host : Option String)
    (replies : List (Addr × List (List Char)))
    (out : List (Addr × Headers)) (st' : DiscoveryState)
    (hst : ∀ e ∈ st.devices, isStreamMagicDev e = true)
    (h : discover st host replies = .ok (some out, st')) :
    ∀ e ∈ out, isStreamMagicDev e = true := by
  unfold discover at h
  cases hloop : discoverLoop host [] st.devices
      (replies.map (fun r => (r.1, buildHeaders r.2))) with
  | exn e => rw [hloop] at h; cases h
  | ok devs =>
      rw [hloop] at h
      by_cases hnil : devs = []
      · simp [hnil] at h
      · simp only [if_neg hnil, PyResult.ok.injEq, Prod.mk.injEq, Option.some.injEq] at h
        obtain ⟨hdevs, -⟩ := h
        subst hdevs
        exact discoverLoop_preserves_filter host [] _ st.devices _ hloop hst

/-- Witness for C3: a fresh instance, no target host, one matching
reply; the theorem yields the filter property for the returned entry. -/
theorem C3_witness :
    isStreamMagicDev ((("192.168.10.250" : String), (1900 : Nat)),
      [(("server" : String), ("StreamMagic 6.0" : String))]) = true :=
  C3_discover_filter_invariant initDiscoveryState none
    [((("192.168.10.250" : String), (1900 : Nat)),
      ["HTTP/1.1 200 OK".data, "SERVER: StreamMagic 6.0".data])]
    [((("192.168.10.250" : String), (1900 : Nat)), [("server", "StreamMagic 6.0")])]
    ⟨[((("192.168.10.250" : String), (1900 : Nat)), [("server", "StreamMagic 6.0")])]⟩
    (by intro e he; cases he)
    rfl
    ((("192.168.10.250" : String), (1900 : Nat)), [("server", "StreamMagic 6.0")])
    (List.mem_singleton.mpr rfl)

-- ---------------------------------------------------------------------
-- C6
-- ---------------------------------------------------------------------

/-- C6 (behaviour at the failing input): with no target host, two
replies from the same address both pass the filter and are both
appended - the returned list contains the same address twice within a
single call.  The membership test that was meant to de-duplicate reads
the local `discovered_devices` list, which stays empty because appends
go to `self.devices`. -/
theorem C6_no_dedup_failing_input :
    discover initDiscoveryState none
      [((("192.168.10.250" : String), (1900 : Nat)),
        ["HTTP/1.1 200 OK".data, "SERVER: StreamMagic 6.0".data]),
       ((("192.168.10.250" : String), (1900 : Nat)),
        ["HTTP/1.1 200 OK".data, "SERVER: StreamMagic 6.0".data])] =
      .ok (some
        [((("192.168.10.250" : String), (1900 : Nat)), [("server", "StreamMagic 6.0")]),
         ((("192.168.10.250" : String), (1900 : Nat)), [("server", "StreamMagic 6.0")])],
        ⟨[((("192.168.10.250" : String), (1900 : Nat)), [("server", "StreamMagic 6.0")]),
          ((("192.168.10.250" : String), (1900 : Nat)), [("server", "StreamMagic 6.0")])]⟩) :=
  rfl

-- ---------------------------------------------------------------------
-- C9
-- ---------------------------------------------------------------------

/-- C9: a reply that passes the address check (no target host given, or
the target host matches) but carries no `server` header makes `discover`
raise `KeyError` instead of filtering the reply out or returning the
null signal. -/
theorem C9_missing_server_raises (st : DiscoveryState) (host : Option String)
    (addr : Addr) (lines : List (List Char))
    (rest : List (Addr × List (List Char)))
    (hpass : hostGiven host = false ∨ host = some addr.1)
    (hns : assocFind (buildHeaders lines) "server" = none) :
    discover st host ((addr, lines) :: rest) = .exn "KeyError" := by
  unfold discover
  simp only [List.map_cons]
  unfold discoverLoop
  rcases hpass with hng | hmatch
  · rw [hng]
    simp only [Bool.false_eq_true, if_false, List.map_nil, List.not_mem_nil, if_neg,
      List.mem_nil_iff]
    rw [hns]
  · by_cases hg : hostGiven host = true
    · rw [hg]
      simp only [if_true]
      rw [if_pos hmatch.symm]
      rw [hns]
    · rw [Bool.not_eq_true] at hg
      rw [hg]
      simp only [Bool.false_eq_true, if_false, List.map_nil, List.not_mem_nil, if_neg,
        List.mem_nil_iff]
      rw [hns]

/-- Witness for C9: a fresh instance, no host filter, a single reply
with no headers at all. -/
theorem C9_witness :
    discover initDiscoveryState none
      [((("10.0.0.1" : String), (1900 : Nat)), ["HTTP/1.1 200 OK".data])] =
      .exn "KeyError" :=
  C9_missing_server_raises initDiscoveryState none (("10.0.0.1" : String), (1900 : Nat))
    ["HTTP/1.1 200 OK".data] [] (Or.inl rfl) (by decide)

-- ---------------------------------------------------------------------
-- C7 (with helper lemmas on the split)
-- ---------------------------------------------------------------------

theorem pySplitCS_cons2 (c1 c2 : Char) (rest acc : List Char) :
    pySplitCS (c1 :: c2 :: rest) acc =
      if c1 = ':' && c2 = ' ' then acc.reverse :: pySplitCS rest []
      else pySplitCS (c2 :: rest) (c1 :: acc) := rfl

theorem pySplitCS_noSep :
    ∀ (k : List Char), hasSepCS k = false →
      ∀ acc, pySplitCS k acc = [acc.reverse ++ k] := by
  intro k
  induction k with
  | nil => intro _ acc; simp [pySplitCS]
  | cons c1 k' ih =>
      intro h acc
      cases k' with
      | nil => simp [pySplitCS]
      | cons c2 rest =>
          unfold hasSepCS at h
          simp only [Bool.or_eq_false_iff] at h
          unfold pySplitCS
          rw [if_neg (by simp [h.1])]
          rw [ih h.2 (c1 :: acc)]
          simp

theorem pySplitCS_sep :
    ∀ (k : List Char), hasSepCS k = false →
      ∀ (v acc : List Char),
        pySplitCS (k ++ ':' :: ' ' :: v) acc = (acc.reverse ++ k) :: pySplitCS v [] := by
  intro k
  induction k with
  | nil =>
      intro _ v acc
      rw [List.nil_append, pySplitCS_cons2, if_pos (by simp)]
      simp
  | cons c1 k' ih =>
      intro h v acc
      cases k' with
      | nil =>
          rw [List.cons_append, List.nil_append, pySplitCS_cons2,
            if_neg (by simp), pySplitCS_cons2, if_pos (by simp)]
          simp
      | cons c2 rest =>
          unfold hasSepCS at h
          simp only [Bool.or_eq_false_iff] at h
          rw [List.cons_append, List.cons_append, pySplitCS_cons2,
            if_neg (by simp [h.1]), ← List.cons_append, ih h.2 v (c1 :: acc)]
          simp

/-- C7 (amended): each header line after the discarded first line is
split by Python's `split(": ")` on *every* occurrence of `": "`; the key
is the piece before the first separator, lowercased, and the value is
the piece between the first and second separators (empty when there is
no separator), so a value containing `": "` is truncated rather than
preserved in full. -/
theorem C7_header_line_semantics (k v w : List Char)
    (hk : hasSepCS k = false) (hv : hasSepCS v = false) :
    headerKV (k ++ ':' :: ' ' :: v) = (String.mk (lowerChars k), String.mk v) ∧
    headerKV (k ++ ':' :: ' ' :: (v ++ ':' :: ' ' :: w)) =
      (String.mk (lowerChars k), String.mk v) ∧
    headerKV k = (String.mk (lowerChars k), "") ∧
    ∀ firstLine : List Char,
      buildHeaders [firstLine, k ++ ':' :: ' ' :: v] =
        [(String.mk (lowerChars k), String.mk v)] := by
  have h1 : headerKV (k ++ ':' :: ' ' :: v) = (String.mk (lowerChars k), String.mk v) := by
    unfold headerKV
    rw [pySplitCS_sep k hk v [], pySplitCS_noSep v hv []]
    rfl
  refine ⟨h1, ?_, ?_, ?_⟩
  · unfold headerKV
    rw [pySplitCS_sep k hk (v ++ ':' :: ' ' :: w) [], pySplitCS_sep v hv w []]
    rfl
  · unfold headerKV
    rw [pySplitCS_noSep k hk []]
    rfl
  · intro firstLine
    unfold buildHeaders
    simp only [List.drop_succ_cons, List.drop_zero, List.foldl_cons, List.foldl_nil]
    rw [h1]
    rfl

/-- Witness for C7 at the concrete line `"ST: upnp"` (with `k = "ST"`,
`v = "upnp"`, `w = "rootdevice"`). -/
theorem C7_witness :
    headerKV ("ST".data ++ ':' :: ' ' :: "upnp".data) = ("st", "upnp") ∧
    headerKV ("ST".data ++ ':' :: ' ' :: ("upnp".data ++ ':' :: ' ' :: "rootdevice".data)) =
      ("st", "upnp") ∧
    headerKV "ST".data = ("st", "") ∧
    buildHeaders ["HTTP/1.1 200 OK".data, "ST".data ++ ':' :: ' ' :: "upnp".data] =
      [("st", "upnp")] := by
  obtain ⟨h1, h2, h3, h4⟩ :=
    C7_header_line_semantics "ST".data "upnp".data "rootdevice".data (by decide) (by decide)
  exact ⟨h1, h2, h3, h4 "HTTP/1.1 200 OK".data⟩

/-- C7 (counterexample): the claim says a header value that itself
contains `": "` is preserved in full; on the line
`"ST: upnp: rootdevice"` the source keeps only `"upnp"`, whereas the
first-occurrence split described by the spec keeps
`"upnp: rootdevice"`. -/
theorem C7_counterexample :
    headerKV "ST: upnp: rootdevice".data = ("st", "upnp") ∧
    headerKVFirstSplit "ST: upnp: rootdevice".data = ("st", "upnp: rootdevice") ∧
    headerKV "ST: upnp: rootdevice".data ≠ headerKVFirstSplit "ST: upnp: rootdevice".data := by
  refine ⟨by decide, by decide, by decide⟩

-- ---------------------------------------------------------------------
-- C4 (with helper lemmas connecting containsTag and elementsByTag)
-- ---------------------------------------------------------------------

mutual

theorem elementsByTag_nil_of_not_contains (tag : String) :
    ∀ n : XmlNode, containsTag tag n = false → elementsByTag tag n = []
  | .text _, _ => rfl
  | .element t a cs, h => by
      unfold containsTag at h
      simp only [Bool.or_eq_false_iff, decide_eq_false_iff_not] at h
      unfold elementsByTag
      rw [if_neg h.1, elementsByTagList_nil_of_not_contains tag cs h.2]
      rfl

theorem elementsByTagList_nil_of_not_contains (tag : String) :
    ∀ cs : List XmlNode, containsTagList tag cs = false → elementsByTagList tag cs = []
  | [], _ => rfl
  | c :: cs, h => by
      unfold containsTagList at h
      simp only [Bool.or_eq_false_iff] at h
      unfold elementsByTagList
      rw [elementsByTag_nil_of_not_contains tag c h.1,
        elementsByTagList_nil_of_not_contains tag cs h.2]
      rfl

end

/-- C4 (amended): `_get_response_tag_value` returns the `nodeValue` of
the *first child* of the first element matching the tag name when that
element has a child (the text when the first child is a text node,
Python `None` when it is an element); it raises `AttributeError` when
the first matching element is childless; and it returns the sentinel
`'n/a'`, raising nothing, when no element with the tag name occurs
anywhere in the document. -/
theorem C4_tag_value_semantics (doc : XmlNode) (tag : String) :
    (containsTag tag doc = false →
        get_response_tag_value doc tag = .ok (some "n/a")) ∧
    (∀ (t : String) (a : List (String × String)) (c : XmlNode) (cs rest : List XmlNode),
        elementsByTag tag doc = XmlNode.element t a (c :: cs) :: rest →
        get_response_tag_value doc tag = .ok (nodeValue c)) ∧
    (∀ (t : String) (a : List (String × String)) (rest : List XmlNode),
        elementsByTag tag doc = XmlNode.element t a [] :: rest →
        get_response_tag_value doc tag = .exn "AttributeError") := by
  refine ⟨?_, ?_, ?_⟩
  · intro h
    unfold get_response_tag_value
    rw [elementsByTag_nil_of_not_contains tag doc h]
  · intro t a c cs rest h
    unfold get_response_tag_value
    rw [h]
    rfl
  · intro t a rest h
    unfold get_response_tag_value
    rw [h]
    rfl

/-- Witness for C4 on concrete documents: an absent tag yields the
sentinel, a matching element with a text child yields its text, and a
matching childless element raises. -/
theorem C4_witness :
    get_response_tag_value
        (XmlNode.element "root" [] [XmlNode.element "x" [] [XmlNode.text "hello"]])
        "missing" = .ok (some "n/a") ∧
    get_response_tag_value
        (XmlNode.element "root" [] [XmlNode.element "x" [] [XmlNode.text "hello"]])
        "x" = .ok (some "hello") ∧
    get_response_tag_value
        (XmlNode.element "root" [] [XmlNode.element "empty" [] []])
        "empty" = .exn "AttributeError" :=
  ⟨(C4_tag_value_semantics
      (XmlNode.element "root" [] [XmlNode.element "x" [] [XmlNode.text "hello"]])
      "missing").1 rfl,
   (C4_tag_value_semantics
      (XmlNode.element "root" [] [XmlNode.element "x" [] [XmlNode.text "hello"]])
      "x").2.1 "x" [] (XmlNode.text "hello") [] [] rfl,
   (C4_tag_value_semantics
      (XmlNode.element "root" [] [XmlNode.element "empty" [] []])
      "empty").2.2 "empty" [] [] rfl⟩

/-- C4 (counterexample): in the document `<a><b/></a>` an element
matching the tag `b` exists (so the claim promises its text content is
returned), yet the call raises `AttributeError` because the matching
element has no first child. -/
theorem C4_counterexample :
    (elementsByTag "b" (XmlNode.element "a" [] [XmlNode.element "b" [] []])).length = 1 ∧
    get_response_tag_value (XmlNode.element "a" [] [XmlNode.element "b" [] []]) "b" =
      .exn "AttributeError" :=
  ⟨rfl, rfl⟩

-- ---------------------------------------------------------------------
-- C5
-- ---------------------------------------------------------------------

/-- C5: `get_playback_details` returns `None` without issuing any SOAP
call whenever the cached power state is not `'on'`; returns the dict
whose four values are all empty strings when the transport state reads
`TRANSITIONING`; and otherwise - the SOAP exchanges succeeding and the
playback-details document carrying the expected elements - returns a
dict with exactly the four keys `state`, `format`, `artist` and
`stream`, parsed from that document. -/
theorem C5_playback_details_behaviour :
    (∀ (pwrstate : Option String) (env : DeviceEnv), pwrstate ≠ some "on" →
        get_playback_details pwrstate env = ([], .ok none)) ∧
    (∀ env : DeviceEnv,
        tagValueOfResponse env.transportResp "CurrentTransportState" =
          .ok (some "TRANSITIONING") →
        get_playback_details (some "on") env =
          (["GetTransportInfo"], .ok (some emptyPlaybackDict))) ∧
    (∀ (env : DeviceEnv) (ts nid isReg : Option String) (pbStr : String) (doc : XmlNode)
        (s : Option String) (f : List (String × String)) (a t : Option String),
        tagValueOfResponse env.transportResp "CurrentTransportState" = .ok ts →
        ts ≠ some "TRANSITIONING" →
        tagValueOfResponse env.registerResp "RetNavigatorId" = .ok nid →
        tagValueOfResponse env.playbackResp "RetPlaybackXML" = .ok (some pbStr) →
        tagValueOfResponse env.isRegResp "IsRegistered" = .ok isReg →
        env.parsePlayback pbStr = .ok doc →
        pbTryExtract doc = .ok s f a t →
        (get_playback_details (some "on") env).2 =
          .ok (some [("state", pbOfOpt s), ("format", PbVal.attrs f),
                     ("artist", pbOfOpt a), ("stream", pbOfOpt t)]) ∧
        [("state", pbOfOpt s), ("format", PbVal.attrs f),
         ("artist", pbOfOpt a), ("stream", pbOfOpt t)].map Prod.fst =
          ["state", "format", "artist", "stream"]) := by
  refine ⟨?_, ?_, ?_⟩
  · intro pwrstate env hp
    unfold get_playback_details
    rw [if_pos hp]
  · intro env htr
    simp [get_playback_details, htr]
  · intro env ts nid isReg pbStr doc s f a t htr hts hreg hpb hisreg hparse hext
    refine ⟨?_, rfl⟩
    simp [get_playback_details, htr, hts, hreg, hpb, hisreg, hparse, hext]

/-- Witness for C5 at three concrete environments: a powered-off cache,
a transitioning device, and a playing device answering with well-formed
documents. -/
theorem C5_witness :
    get_playback_details (some "off") envSilent = ([], .ok none) ∧
    get_playback_details (some "on") envTransitioning =
      (["GetTransportInfo"], .ok (some emptyPlaybackDict)) ∧
    (get_playback_details (some "on") envPlaying).2 =
      .ok (some [("state", PbVal.str "Playing"),
                 ("format", PbVal.attrs [("codec", "MP3"), ("sample-rate", "44100")]),
                 ("artist", PbVal.str "Derek And The Dominos - Layla"),
                 ("stream", PbVal.str "Psychomed Rock")]) :=
  ⟨C5_playback_details_behaviour.1 (some "off") envSilent (by decide),
   C5_playback_details_behaviour.2.1 envTransitioning rfl,
   (C5_playback_details_behaviour.2.2 envPlaying (some "PLAYING") (some "17") (some "1")
      "pbxml" pbDocExample (some "Playing") [("codec", "MP3"), ("sample-rate", "44100")]
      (some "Derek And The Dominos - Layla") (some "Psychomed Rock")
      rfl (by decide) rfl rfl rfl rfl rfl).1⟩

-- ---------------------------------------------------------------------
-- C8 (with helper lemmas on dictionary and heap updates)
-- ---------------------------------------------------------------------

theorem find_map_overwrite {V : Type} (k : String) (v : V) :
    ∀ d : List (String × V),
      (d.map (fun p => if p.1 = k then (k, v) else p)).find? (fun p => p.1 = k) =
        if d.any (fun p => p.1 = k) then some (k, v) else none := by
  intro d
  induction d with
  | nil => rfl
  | cons p d' ih =>
      by_cases hp : p.1 = k
      · rw [List.map_cons, if_pos hp, List.find?_cons_of_pos _ (by simp), List.any_cons]
        simp [hp]
      · rw [List.map_cons, if_neg hp, List.find?_cons_of_neg _ (by simp [hp]), ih,
          List.any_cons, decide_eq_false hp, Bool.false_or]

theorem find_append_absent {V : Type} (k : String) (v : V) :
    ∀ d : List (String × V), d.any (fun p => p.1 = k) = false →
      assocFind (d ++ [(k, v)]) k = some v := by
  intro d
  induction d with
  | nil => intro _; simp [assocFind, List.find?]
  | cons p d' ih =>
      intro h
      simp only [List.any_cons, Bool.or_eq_false_iff, decide_eq_false_iff_not] at h
      unfold assocFind
      rw [List.cons_append, List.find?_cons_of_neg _ (by simp [h.1])]
      exact ih h.2

theorem assocFind_assocUpdate {V : Type} (k : String) (v : V) (d : List (String × V)) :
    assocFind (assocUpdate d k v) k = some v := by
  unfold assocUpdate
  by_cases h : d.any (fun p => p.1 = k) = true
  · rw [if_pos h]
    unfold assocFind
    rw [find_map_overwrite, if_pos h]
    rfl
  · rw [if_neg h]
    exact find_append_absent k v d (by rw [← Bool.not_eq_true]; exact h)

theorem find_map_setref {V : Type} (r : Nat) (d : List (String × V)) :
    ∀ h : List (Nat × List (String × V)),
      (h.find? (fun p => p.1 = r)).isSome = true →
      (h.map (fun p => if p.1 = r then (r, d) else p)).find? (fun p => p.1 = r) =
        some (r, d) := by
  intro h
  induction h with
  | nil => intro hh; simp [List.find?] at hh
  | cons p h' ih =>
      intro hh
      by_cases hp : p.1 = r
      · rw [List.map_cons, if_pos hp, List.find?_cons_of_pos _ (by simp)]
      · rw [List.map_cons, if_neg hp, List.find?_cons_of_neg _ (by simp [hp])]
        rw [List.find?_cons_of_neg _ (by simp [hp])] at hh
        exact ih hh

theorem attrRef_heapSet {V : Type} (sys : PyObjSys V) (r : Nat)
    (d : List (String × V)) (i : Nat) (name : String) :
    attrRef (heapSet sys r d) i name = attrRef sys i name := rfl

theorem heapDict_heapSet_same {V : Type} (sys : PyObjSys V) (r : Nat)
    (d0 d : List (String × V)) (h : heapDict sys r = some d0) :
    heapDict (heapSet sys r d) r = some d := by
  unfold heapDict at h ⊢
  unfold heapSet
  simp only []
  obtain ⟨entry, hfind, -⟩ := Option.map_eq_some'.mp h
  rw [find_map_setref r d sys.heap (by rw [hfind]; rfl)]
  rfl

/-- C8: `services` and `actions` are class-level attributes of
`StreamMagicDevice`, so the in-place dictionary mutations performed at
construction (`self.services.update(...)`) and during capability
expansion (`self.actions[...] = ...`) through one instance are
observable through every other instance: as long as neither instance
shadows the attribute in its own `__dict__`, both resolve it to the one
shared class-level dict object. -/
theorem C8_class_level_registries_shared {V : Type} (sys : PyObjSys V)
    (a b : Nat) (name k : String) (v : V) (sys' : PyObjSys V)
    (ha : (instDict sys a).find? (fun p => p.1 = name) = none)
    (hb : (instDict sys b).find? (fun p => p.1 = name) = none)
    (hupd : attrDictUpdate sys a name k v = some sys') :
    attrDictGet sys' b name k = some v := by
  unfold attrDictUpdate at hupd
  split at hupd
  · cases hupd
  · rename_i r har
    split at hupd
    · cases hupd
    · rename_i d hd
      injection hupd with hsys
      subst hsys
      have hclass : (sys.classAttrs.find? (fun p => p.1 = name)).map Prod.snd = some r := by
        unfold attrRef at har
        rw [ha] at har
        exact har
      have hrb : attrRef sys b name = some r := by
        unfold attrRef
        rw [hb]
        exact hclass
      unfold attrDictGet
      rw [attrRef_heapSet, hrb]
      simp only [Option.bind_eq_bind, Option.some_bind]
      rw [heapDict_heapSet_same sys r d (assocUpdate d k v) hd]
      simp only [Option.some_bind]
      exact assocFind_assocUpdate k v d

/-- Witness for C8 on the concrete class layout of `StreamMagicDevice`:
a `services` entry and an `actions` entry inserted through instance `0`
are read back through instance `1`. -/
theorem C8_witness :
    attrDictGet (PyObjSys.mk [("services", 0), ("actions", 1)] [(0, []), (1, [])]
        [(0, [("urn:schemas-upnp-org:service:AVTransport:1", "http://h/ctrl")]), (1, [])])
      1 "services" "urn:schemas-upnp-org:service:AVTransport:1" = some "http://h/ctrl" ∧
    attrDictGet (PyObjSys.mk [("services", 0), ("actions", 1)] [(0, []), (1, [])]
        [(0, []), (1, [("urn:schemas-upnp-org:service:AVTransport:1", "GetTransportInfo")])])
      1 "actions" "urn:schemas-upnp-org:service:AVTransport:1" = some "GetTransportInfo" :=
  ⟨C8_class_level_registries_shared (streamMagicClassSys String) 0 1 "services"
      "urn:schemas-upnp-org:service:AVTransport:1" "http://h/ctrl"
      (PyObjSys.mk [("services", 0), ("actions", 1)] [(0, []), (1, [])]
        [(0, [("urn:schemas-upnp-org:service:AVTransport:1", "http://h/ctrl")]), (1, [])])
      rfl rfl rfl,
   C8_class_level_registries_shared (streamMagicClassSys String) 0 1 "actions"
      "urn:schemas-upnp-org:service:AVTransport:1" "GetTransportInfo"
      (PyObjSys.mk [("services", 0), ("actions", 1)] [(0, []), (1, [])]
        [(0, []), (1, [("urn:schemas-upnp-org:service:AVTransport:1", "GetTransportInfo")])])
      rfl rfl rfl⟩

-- ---------------------------------------------------------------------
-- C10
-- ---------------------------------------------------------------------

/-- C10: `power_on`, and `power_off` with an accepted `OFF`/`IDLE`
argument, set the cached power state to the target value unconditionally
after the SOAP dispatch - also when the POST fails at the network level
with a caught `URLError` instance and the call returns `None` - while
`power_off` with any other argument returns `None` and leaves the cache
unchanged. -/
theorem C10_power_cache_update (services : List (String × String))
    (pwrstate : Option String) (power_state : String) (net : PostOutcome)
    (ctrlUrl : String)
    (hsvc : assocFind services URN_UuVolControl = some ctrlUrl) :
    (∀ e : NetExc, isURLErrorInstance e = true → net = .raise e →
        power_on services pwrstate net = .ok (none, some "on")) ∧
    (∀ bytes : String, net = .opened (.ok bytes) →
        power_on services pwrstate net = .ok (some bytes, some "on")) ∧
    (power_state = "OFF" ∨ power_state = "IDLE" →
        ∀ e : NetExc, isURLErrorInstance e = true → net = .raise e →
        power_off services pwrstate power_state net =
          .ok (none, some (pyLower power_state))) ∧
    (power_state = "OFF" ∨ power_state = "IDLE" →
        ∀ bytes : String, net = .opened (.ok bytes) →
        power_off services pwrstate power_state net =
          .ok (some bytes, some (pyLower power_state))) ∧
    (power_state ≠ "OFF" → power_state ≠ "IDLE" →
        power_off services pwrstate power_state net = .ok (none, pwrstate)) := by
  have hmem : ∀ ps : String, ps = "OFF" ∨ ps = "IDLE" → ¬ps ∉ ["OFF", "IDLE"] := by
    intro ps hps
    simp only [List.mem_cons, List.mem_singleton, not_not]
    rcases hps with h | h
    · exact Or.inl h
    · exact Or.inr (Or.inl h)
  refine ⟨?_, ?_, ?_, ?_, ?_⟩
  · intro e hcaught he
    subst he
    unfold power_on sendCmd
    rw [hsvc]
    cases e <;> first | rfl | simp [isURLErrorInstance] at hcaught
  · intro bytes hb
    subst hb
    unfold power_on sendCmd
    rw [hsvc]
  · intro hps e hcaught he
    subst he
    unfold power_off
    rw [if_neg (hmem power_state hps)]
    unfold sendCmd
    rw [hsvc]
    cases e <;> first | rfl | simp [isURLErrorInstance] at hcaught
  · intro hps bytes hb
    subst hb
    unfold power_off
    rw [if_neg (hmem power_state hps)]
    unfold sendCmd
    rw [hsvc]
  · intro h1 h2
    unfold power_off
    rw [if_pos (by simp [h1, h2])]

/-- Witness for C10 at a concrete service map: a POST failing with a
caught `URLError` still turns the cache `on` or `off`, a successful
`power_off` with `IDLE` caches `idle`, and a rejected argument leaves an
`on` cache in place. -/
theorem C10_witness :
    power_on [(URN_UuVolControl, "http://h/ctrl")] (some "off") (.raise .urlError) =
      .ok (none, some "on") ∧
    power_off [(URN_UuVolControl, "http://h/ctrl")] (some "on") "OFF" (.raise .urlError) =
      .ok (none, some (pyLower "OFF")) ∧
    power_off [(URN_UuVolControl, "http://h/ctrl")] (some "on") "IDLE"
        (.opened (.ok "<resp/>")) =
      .ok (some "<resp/>", some (pyLower "IDLE")) ∧
    power_off [(URN_UuVolControl, "http://h/ctrl")] (some "on") "STANDBY"
        (.opened (.ok "<resp/>")) =
      .ok (none, some "on") :=
  ⟨(C10_power_cache_update [(URN_UuVolControl, "http://h/ctrl")] (some "off") "OFF"
      (.raise .urlError) "http://h/ctrl" rfl).1 .urlError rfl rfl,
   (C10_power_cache_update [(URN_UuVolControl, "http://h/ctrl")] (some "on") "OFF"
      (.raise .urlError) "http://h/ctrl" rfl).2.2.1 (Or.inl rfl) .urlError rfl rfl,
   (C10_power_cache_update [(URN_UuVolControl, "http://h/ctrl")] (some "on") "IDLE"
      (.opened (.ok "<resp/>")) "http://h/ctrl" rfl).2.2.2.1 (Or.inr rfl) "<resp/>" rfl,
   (C10_power_cache_update [(URN_UuVolControl, "http://h/ctrl")] (some "on") "STANDBY"
      (.opened (.ok "<resp/>")) "http://h/ctrl" rfl).2.2.2.2 (by decide) (by decide)⟩

end StreamMagicSpec
